import Mathlib

/-!
Verification of the noodlex VCF streaming reader (src/native/noodlex/src/lib.rs).

The Rust source exposes four NIF operations: `get_handle` (open), `get_header`,
`get_record` (read_one) and `get_records` (read_many).  The line-level VCF
grammar itself lives in the external `noodles_vcf` crate; the spec treats it as
a correct external grammar engine, so those parts are modelled from the spec
(each such definition is marked `Modelled from the spec:`).  Everything the
repository's own source decides — error classification, the conversion of
parsed structures to boundary values, the read loops and their error
propagation — is translated directly from `lib.rs`.

Streams are modelled as the list of remaining input lines: `read_record`
consumes the head line (an empty string or an exhausted list models a read
that yields no content, which the source treats as end of file).
-/

namespace Noodlex

/-- Erlang atoms produced by the NIF layer (the `atoms!` block of lib.rs),
restricted to the ones the verified operations emit. -/
inductive Atom where
  | ok_atom
  | error_atom
  | not_found
  | permission_denied
  | broken_pipe
  | already_exists
  | unknown
  | alternate_alleles
  | reference_and_alternate_alleles
  | genotypes
  | end_of_file
  deriving DecidableEq, Repr

/-- Rust's `std::io::ErrorKind`, with the four kinds `io_error_to_term`
distinguishes plus representatives of every other kind (collapsed by the
source's `_` arm). -/
inductive IoErrorKind where
  | notFound
  | permissionDenied
  | brokenPipe
  | alreadyExists
  | connectionRefused
  | connectionReset
  | connectionAborted
  | notConnected
  | addrInUse
  | addrNotAvailable
  | wouldBlock
  | invalidInput
  | invalidData
  | timedOut
  | writeZero
  | interrupted
  | unsupported
  | unexpectedEof
  | outOfMemory
  | other
  deriving DecidableEq, Repr

/-- Translation of `io_error_to_term` (lib.rs lines 143-151): classify an I/O
failure kind into the closed atom set, with `unknown` as the fallback arm. -/
def io_error_to_term : IoErrorKind → Atom
  | .notFound => .not_found
  | .permissionDenied => .permission_denied
  | .brokenPipe => .broken_pipe
  | .alreadyExists => .already_exists
  | _ => .unknown

/-- The `vcf::header::Number` enumeration of the external crate: a fixed
integer count, `A`, `R`, `G`, or unknown (`.`). -/
inductive Number where
  | count (n : Nat)
  | A
  | R
  | G
  | unknown
  deriving DecidableEq, Repr

/-- The `vcf::header::info::ty::Type` enumeration of the external crate. -/
inductive ValueType where
  | integer
  | float
  | flag
  | character
  | str
  deriving DecidableEq, Repr

/-- One `##INFO` definition of a parsed header. -/
structure InfoDef where
  id : String
  number : Number
  ty : ValueType
  description : String
  deriving DecidableEq, Repr

/-- The parsed header model: fileformat version pair, INFO definitions and
FILTER definitions (id paired with description). -/
structure Header where
  fileformat_major : Nat
  fileformat_minor : Nat
  infos : List InfoDef
  filters : List (String × String)
  deriving DecidableEq, Repr

/-- Translation of the `Number` conversion inside `get_header` (lib.rs lines
201-207): note the source maps `Count(_count)` to the `unknown` atom,
discarding the count. -/
def numberToTerm : Number → Atom
  | .count _ => .unknown
  | .A => .alternate_alleles
  | .R => .reference_and_alternate_alleles
  | .G => .genotypes
  | .unknown => .unknown

/-- The `vcf::record::filters::Filters` value of the external crate: a FILTER
column is either `PASS` or a failing list of filter names. -/
inductive Filters where
  | pass
  | fail (filters : List String)
  deriving DecidableEq, Repr

/-- Translation of the `VcfRecordFilters` tagged enum (lib.rs lines 131-136). -/
inductive VcfRecordFilters where
  | none
  | pass
  | fail (filters : List String)
  deriving DecidableEq, Repr

/-- Translation of the filter conversion match in `get_record` (lib.rs lines
264-272): `Some(Pass)` to `Pass`, `Some(Fail fs)` to `Fail fs`, `None` to
`None`. -/
def convertFilters : Option Filters → VcfRecordFilters
  | some .pass => .pass
  | some (.fail fs) => .fail fs
  | none => .none

/-- Split a character list on a separator character; mirrors `str::split` in
that the empty list yields one empty group. -/
def splitListOn (sep : Char) : List Char → List (List Char)
  | [] => [[]]
  | c :: rest =>
    let r := splitListOn sep rest
    if c = sep then [] :: r
    else
      match r with
      | [] => [[c]]
      | g :: gs => (c :: g) :: gs

/-- Split a string on a separator character, as `str::split` does. -/
def splitStr (s : String) (sep : Char) : List String :=
  (splitListOn sep s.toList).map (fun cs => String.mk cs)

/-- Split a character list at the first occurrence of a separator; `none` in
the second component means the separator does not occur. -/
def splitFirst (sep : Char) : List Char → List Char × Option (List Char)
  | [] => ([], none)
  | c :: rest =>
    if c = sep then ([], some rest)
    else
      let (pre, post) := splitFirst sep rest
      (c :: pre, post)

/-- Accumulate decimal digits into a number, failing on a non-digit. -/
def digitsToNatAux : Nat → List Char → Option Nat
  | acc, [] => some acc
  | acc, c :: rest =>
    if c.isDigit then digitsToNatAux (acc * 10 + (c.toNat - 48)) rest
    else none

/-- Modelled from the spec: the unsigned-integer parse used for the POS
column ("parse as unsigned integer; fails with DecodeError if non-numeric").
The integer parse of the external grammar engine is not in src/. -/
def parseNatStr (s : String) : Option Nat :=
  match s.toList with
  | [] => none
  | cs => digitsToNatAux 0 cs

/-- Modelled from the spec: the floating-point parse used for the QUAL column
("otherwise parse a floating-point value").  The float grammar of the external
engine is not in src/; modelled as an optional sign, decimal digits and an
optional fraction, with rational values standing for the source's `f32`. -/
def parseRatStr (s : String) : Option Rat :=
  match s.toList with
  | [] => none
  | cs =>
    let (neg, body) :=
      match cs with
      | '-' :: rest => (true, rest)
      | _ => (false, cs)
    if body.isEmpty then none
    else
      match splitFirst '.' body with
      | (ip, none) =>
        (digitsToNatAux 0 ip).map (fun n => if neg then -(n : Rat) else (n : Rat))
      | (ip, some fp) =>
        if fp.isEmpty then none
        else
          match digitsToNatAux 0 ip, digitsToNatAux 0 fp with
          | some a, some b =>
            let v : Rat := (a : Rat) + (b : Rat) / ((10 : Rat) ^ fp.length)
            some (if neg then -v else v)
          | _, _ => none

/-- A record as the external grammar engine parses it from one tab-delimited
data line, before the source's conversion to boundary values.  `genotypes`
holds, per sample column, the list of FORMAT-key/value pairs obtained by
splitting the column on `:` and zipping positionally against the FORMAT
keys. -/
structure ParsedRecord where
  chromosome : String
  position : Nat
  ids : List String
  reference_bases : String
  alternate_bases : String
  quality_score : Option Rat
  filters : Option Filters
  info : List (String × String)
  format : List String
  genotypes : List (List (String × String))
  deriving DecidableEq, Repr

/-- Modelled from the spec: the FILTER column parse of the external grammar
engine — `.` yields no filter outcome (NotTested), `PASS` yields Pass, any
other value yields the `;`-separated failing list. -/
def parseFilterColumn (s : String) : Option Filters :=
  if s = "." then none
  else if s = "PASS" then some .pass
  else some (.fail (splitStr s ';'))

/-- Modelled from the spec: the INFO token split of the external grammar
engine — each `;`-separated token splits on the first `=` into key/value, and
a token without `=` is a flag entry carrying no explicit value. -/
def parseInfoToken (t : String) : String × String :=
  match splitFirst '=' t.toList with
  | (k, none) => (String.mk k, "")
  | (k, some v) => (String.mk k, String.mk v)

/-- Modelled from the spec: the INFO column parse — split on `;` into
key/value tokens, an absent column (`.`) giving the empty mapping. -/
def parseInfoColumn (s : String) : List (String × String) :=
  if s = "." then [] else (splitStr s ';').map parseInfoToken

/-- Modelled from the spec: the ID column parse — `.` maps to the empty
list, otherwise split on `;`. -/
def parseIdsColumn (s : String) : List String :=
  if s = "." then [] else splitStr s ';'

/-- Modelled from the spec: the QUAL column parse — `.` maps to no quality
score, otherwise a floating-point parse that fails with a DecodeError on
non-numeric input. -/
def parseQualColumn (s : String) : Except String (Option Rat) :=
  if s = "." then .ok none
  else
    match parseRatStr s with
    | some q => .ok (some q)
    | none => .error ("invalid quality score: " ++ s)

/-- Modelled from the spec: `vcf::record::Record::try_from_str`, the external
per-line record decoder.  The tab-delimited line must carry the eight fixed
columns, optionally followed by a FORMAT column and sample columns; POS must
be an unsigned integer; each sample column is split on `:` and zipped
positionally against the FORMAT keys. -/
def decodeRecordLine (_h : Header) (line : String) : Except String ParsedRecord :=
  match splitStr line '\t' with
  | chrom :: pos :: ids :: ref :: alt :: qual :: filt :: info :: rest =>
    match parseNatStr pos with
    | none => .error ("invalid position: " ++ pos)
    | some p =>
      match parseQualColumn qual with
      | .error e => .error e
      | .ok q =>
        let (fmt, samples) :=
          match rest with
          | [] => (([] : List String), ([] : List String))
          | f :: ss => (splitStr f ':', ss)
        .ok
          { chromosome := chrom
            position := p
            ids := parseIdsColumn ids
            reference_bases := ref
            alternate_bases := alt
            quality_score := q
            filters := parseFilterColumn filt
            info := parseInfoColumn info
            format := fmt
            genotypes := samples.map (fun s => fmt.zip (splitStr s ':')) }
  | _ => .error ("invalid number of columns: " ++ line)

/-- Translation of the `VcfRecord` NIF struct (lib.rs lines 118-129); the
Erlang maps for `info` and `genotypes` are modelled as association lists in
insertion order. -/
structure VcfRecord where
  chromosome : String
  position : Nat
  ids : List String
  reference_bases : String
  alternate_bases : String
  quality_score : Option Rat
  filters : VcfRecordFilters
  info : List (String × String)
  format : List String
  genotypes : List (String × String)
  deriving DecidableEq, Repr

/-- Keep only the first-seen pair per key, preserving order, tracking the
keys already emitted: the semantics of itertools' `unique_by(|(k, _v)| k)`
on the flattened genotype pairs. -/
def uniqueByKeyAux (seen : List String) : List (String × String) → List (String × String)
  | [] => []
  | (k, v) :: rest =>
    if seen.contains k then uniqueByKeyAux seen rest
    else (k, v) :: uniqueByKeyAux (k :: seen) rest

/-- Keep only the first-seen pair per key, preserving order. -/
def uniqueByKey (l : List (String × String)) : List (String × String) :=
  uniqueByKeyAux [] l

/-- Translation of the conversion body of `get_record` (lib.rs lines
257-303): all columns pass through, and `genotypes` is the flattening of the
per-sample key/value pairs deduplicated to the first-seen value per key. -/
def convertRecord (r : ParsedRecord) : VcfRecord :=
  { chromosome := r.chromosome
    position := r.position
    ids := r.ids
    reference_bases := r.reference_bases
    alternate_bases := r.alternate_bases
    quality_score := r.quality_score
    filters := convertFilters r.filters
    info := r.info
    format := r.format
    genotypes := uniqueByKey r.genotypes.flatten }

/-- Translation of the conversion body of `get_records` (lib.rs lines
333-367): identical to `convertRecord` except that `genotypes_pairs` is the
freshly constructed empty vector (lib.rs lines 353-354). -/
def convertRecordBatch (r : ParsedRecord) : VcfRecord :=
  { chromosome := r.chromosome
    position := r.position
    ids := r.ids
    reference_bases := r.reference_bases
    alternate_bases := r.alternate_bases
    quality_score := r.quality_score
    filters := convertFilters r.filters
    info := r.info
    format := r.format
    genotypes := [] }

/-- The error channel of a record read: the `end_of_file` atom or a
DecodeError message, the two `RustlerError::Term` payloads of `get_record`. -/
inductive ReadError where
  | end_of_file
  | decode (msg : String)
  deriving DecidableEq, Repr

/-- Translation of `get_record` (lib.rs lines 250-307) over a line stream:
read one line (the head; an empty string or exhausted stream reads as empty),
return `end_of_file` when the buffer is empty, otherwise decode the line and
return the converted record or the decode error.  The second component is the
stream left for the next call. -/
def get_record (h : Header) : List String → Except ReadError VcfRecord × List String
  | [] => (.error .end_of_file, [])
  | line :: rest =>
    if line = "" then (.error .end_of_file, rest)
    else
      match decodeRecordLine h line with
      | .ok r => (.ok (convertRecord r), rest)
      | .error e => (.error (.decode e), rest)

/-- Translation of `get_record` keeping the fallibility of the raw
`read_record` call visible: the source unwraps the I/O result
(`.read_record(&mut buf).unwrap()`, lib.rs line 253), so an I/O failure
panics instead of returning; `none` models that panic — no value reaches
either side of the NIF's result channel. -/
def get_record_unwrapped (h : Header) (read : Except IoErrorKind String) :
    Option (Except ReadError VcfRecord) :=
  match read with
  | .error _ => none
  | .ok line =>
    if line = "" then some (.error .end_of_file)
    else
      match decodeRecordLine h line with
      | .ok r => some (.ok (convertRecord r))
      | .error e => some (.error (.decode e))

/-- Translation of the `while` loop of `get_records` (lib.rs lines 324-375).
The loop body always runs once (`first_read`), then repeats while no error
was recorded, fewer than `count` records were collected and end of file was
not seen.  Components of the result: the recorded error if any, the collected
records, the `end_of_file` flag, and the remaining stream. -/
def get_records_go (h : Header) (count : Nat) (acc : List VcfRecord) :
    List String → Option String × List VcfRecord × Bool × List String
  | [] => (none, acc, true, [])
  | line :: rest =>
    if line = "" then (none, acc, true, rest)
    else
      match decodeRecordLine h line with
      | .error e => (some e, acc, false, rest)
      | .ok r =>
        let acc2 := acc ++ [convertRecordBatch r]
        if acc2.length < count then get_records_go h count acc2 rest
        else (none, acc2, false, rest)

/-- Translation of `get_records` (lib.rs lines 310-381): run the loop from an
empty record vector and return either the recorded error (discarding all
collected records) or the collected records.  The second component is the
stream left for the next call. -/
def get_records (h : Header) (count : Nat) (lines : List String) :
    Except String (List VcfRecord) × List String :=
  match get_records_go h count [] lines with
  | (some e, _, _, rest) => (.error e, rest)
  | (none, acc, _, rest) => (.ok acc, rest)

/-- The error channel of `get_handle`: an I/O failure classified to an atom
by `io_error_to_term`, or the header parse failure reported as the string
`"Error parsing header: "` plus the underlying message (lib.rs line 182). -/
inductive OpenError where
  | io (a : Atom)
  | parseFailure (msg : String)
  deriving DecidableEq, Repr

/-- Translation of `get_handle` (lib.rs lines 162-186).  The two external
fallible steps — `File::open` and the raw header read — enter as parameters,
as does the external structural header parse; a handle (its header) is
produced only when all three succeed. -/
def get_handle (openResult : Except IoErrorKind Unit)
    (readHeaderResult : Except IoErrorKind String)
    (parseHeader : String → Except String Header) : Except OpenError Header :=
  match openResult with
  | .error e => .error (.io (io_error_to_term e))
  | .ok _ =>
    match readHeaderResult with
    | .error e => .error (.io (io_error_to_term e))
    | .ok raw =>
      match parseHeader raw with
      | .ok h => .ok h
      | .error err => .error (.parseFailure ("Error parsing header: " ++ err))

end Noodlex

deriving instance DecidableEq for Except

namespace Noodlex

/-- The header of the spec's concrete scenario: fileformat VCFv4.3 with one
INFO definition `DP` (Number=1, Type=Integer, Description "Depth"). -/
def dpHeader : Header :=
  { fileformat_major := 4
    fileformat_minor := 3
    infos := [{ id := "DP", number := .count 1, ty := .integer, description := "Depth" }]
    filters := [] }

/-- The data line of the spec's concrete scenario. -/
def dpLine : String := "1\t100\trs1\tA\tT\t50\tPASS\tDP=10"

/-- The boundary record that decoding `dpLine` produces. -/
def dpRecord : VcfRecord :=
  { chromosome := "1"
    position := 100
    ids := ["rs1"]
    reference_bases := "A"
    alternate_bases := "T"
    quality_score := some 50
    filters := .pass
    info := [("DP", "10")]
    format := []
    genotypes := [] }

/-- A data line with FORMAT `GT:DP` and the two sample columns `0/1:5` and
`1/1:9` of the spec's genotype-flattening scenario. -/
def gtLine : String := "1\t100\trs1\tA\tT\t50\tPASS\tDP=10\tGT:DP\t0/1:5\t1/1:9"

/-- The parsed form of `gtLine`: per-sample key/value pairs before the
boundary conversion. -/
def gtParsed : ParsedRecord :=
  { chromosome := "1"
    position := 100
    ids := ["rs1"]
    reference_bases := "A"
    alternate_bases := "T"
    quality_score := some 50
    filters := some .pass
    info := [("DP", "10")]
    format := ["GT", "DP"]
    genotypes := [[("GT", "0/1"), ("DP", "5")], [("GT", "1/1"), ("DP", "9")]] }

/-- C4 counterexample: the claim says an integer count maps to a FixedCount
tag carrying the count, distinct from the other four cases; in the source
`Number::Count(_count)` maps to the same `unknown` atom as `Number::Unknown`,
discarding the count, so the five cases are not distinguished. -/
theorem numberToTerm_count_collapses_to_unknown :
    numberToTerm (.count 1) = numberToTerm .unknown ∧
    numberToTerm (.count 1) = .unknown := by
  decide

/-- C4 (amended): the converted Number value maps every integer count and `.`
to the same `unknown` atom (no FixedCount tag exists), while `A`, `R` and `G`
map to three further, pairwise distinct atoms. -/
theorem numberToTerm_cases (n : Nat) :
    numberToTerm (.count n) = .unknown ∧
    numberToTerm .unknown = .unknown ∧
    numberToTerm .A = .alternate_alleles ∧
    numberToTerm .R = .reference_and_alternate_alleles ∧
    numberToTerm .G = .genotypes ∧
    Atom.alternate_alleles ≠ .unknown ∧
    Atom.reference_and_alternate_alleles ≠ .unknown ∧
    Atom.genotypes ≠ .unknown ∧
    Atom.alternate_alleles ≠ .reference_and_alternate_alleles ∧
    Atom.alternate_alleles ≠ .genotypes ∧
    Atom.reference_and_alternate_alleles ≠ .genotypes := by
  exact ⟨rfl, by decide, by decide, by decide, by decide, by decide, by decide,
    by decide, by decide, by decide, by decide⟩

/-- C5: with a header declaring fileformat VCFv4.3 and INFO DP (Number=1,
Type=Integer), read_one on the data line `1\t100\trs1\tA\tT\t50\tPASS\tDP=10`
yields a record with chromosome "1", position 100, ids ["rs1"],
reference_bases "A", alternate_bases "T", quality_score 50, filters Pass and
info DP=10 (and consumes the line). -/
theorem read_one_concrete_scenario :
    get_record dpHeader [dpLine] = (.ok dpRecord, []) := by
  decide

/-- C6: for every decoded record the FILTER outcome is the source's
conversion of the parsed filter column, and that composite maps `.` to
NotTested, `PASS` to Pass, and any other column value to Fail of the
`;`-separated filter names, as on `q10;s50`. -/
theorem filter_column_decoding (s : String) (r : ParsedRecord)
    (h1 : ¬s = ".") (h2 : ¬s = "PASS") :
    (convertRecord r).filters = convertFilters r.filters ∧
    convertFilters (parseFilterColumn ".") = .none ∧
    convertFilters (parseFilterColumn "PASS") = .pass ∧
    convertFilters (parseFilterColumn s) = .fail (splitStr s ';') ∧
    convertFilters (parseFilterColumn "q10;s50") = .fail ["q10", "s50"] := by
  refine ⟨rfl, by decide, by decide, ?_, by decide⟩
  simp [parseFilterColumn, h1, h2, convertFilters]

/-- C6 witness: the general filter-decoding theorem instantiated at the
column value `q10;s50` and the parsed record of the genotype scenario. -/
theorem filter_column_decoding_witness :
    (convertRecord gtParsed).filters = convertFilters gtParsed.filters ∧
    convertFilters (parseFilterColumn ".") = .none ∧
    convertFilters (parseFilterColumn "PASS") = .pass ∧
    convertFilters (parseFilterColumn "q10;s50") = .fail (splitStr "q10;s50" ';') ∧
    convertFilters (parseFilterColumn "q10;s50") = .fail ["q10", "s50"] :=
  filter_column_decoding "q10;s50" gtParsed (by decide) (by decide)

/-- C7: when the raw header bytes are read successfully but the structural
header parse fails, get_handle returns the structural ParseError — which is
distinct from every I/O-classified error — and produces no handle. -/
theorem open_parse_failure_distinct (raw : String)
    (parseHeader : String → Except String Header) (e : String)
    (a : Atom) (hdr : Header)
    (hp : parseHeader raw = .error e) :
    get_handle (.ok ()) (.ok raw) parseHeader
      = .error (.parseFailure ("Error parsing header: " ++ e)) ∧
    OpenError.parseFailure ("Error parsing header: " ++ e) ≠ .io a ∧
    get_handle (.ok ()) (.ok raw) parseHeader ≠ .ok hdr := by
  refine ⟨?_, ?_, ?_⟩
  · simp [get_handle, hp]
  · intro hx; cases hx
  · simp [get_handle, hp]

/-- C7 witness: the parse-failure theorem instantiated at a parse that
rejects the empty header text with message "bad". -/
theorem open_parse_failure_distinct_witness :
    get_handle (.ok ()) (.ok "") (fun _ => .error "bad")
      = .error (.parseFailure ("Error parsing header: " ++ "bad")) ∧
    OpenError.parseFailure ("Error parsing header: " ++ "bad") ≠ .io .unknown ∧
    get_handle (.ok ()) (.ok "") (fun _ => .error "bad") ≠ .ok dpHeader :=
  open_parse_failure_distinct "" (fun _ => .error "bad") "bad" .unknown dpHeader rfl

/-- C8: an open-time file-system failure is returned classified by
io_error_to_term — whether the failure happens opening the file or reading
the raw header — and the classification maps NotFound, PermissionDenied,
BrokenPipe and AlreadyExists to their atoms and every other kind to
`unknown`. -/
theorem open_io_failure_classified (k k2 : IoErrorKind)
    (readHeaderResult : Except IoErrorKind String)
    (parseHeader : String → Except String Header)
    (h1 : ¬k2 = .notFound) (h2 : ¬k2 = .permissionDenied)
    (h3 : ¬k2 = .brokenPipe) (h4 : ¬k2 = .alreadyExists) :
    get_handle (.error k) readHeaderResult parseHeader
      = .error (.io (io_error_to_term k)) ∧
    get_handle (.ok ()) (.error k) parseHeader
      = .error (.io (io_error_to_term k)) ∧
    io_error_to_term .notFound = .not_found ∧
    io_error_to_term .permissionDenied = .permission_denied ∧
    io_error_to_term .brokenPipe = .broken_pipe ∧
    io_error_to_term .alreadyExists = .already_exists ∧
    io_error_to_term k2 = .unknown := by
  refine ⟨rfl, rfl, rfl, rfl, rfl, rfl, ?_⟩
  cases k2 <;> simp_all [io_error_to_term]

/-- C8 witness: classification instantiated at a missing file for the open
step and the `timedOut` kind for the fallback arm. -/
theorem open_io_failure_classified_witness :
    get_handle (.error .notFound) (.ok "") (fun _ => .error "bad")
      = .error (.io (io_error_to_term .notFound)) ∧
    get_handle (.ok ()) (.error .notFound) (fun _ => .error "bad")
      = .error (.io (io_error_to_term .notFound)) ∧
    io_error_to_term .notFound = .not_found ∧
    io_error_to_term .permissionDenied = .permission_denied ∧
    io_error_to_term .brokenPipe = .broken_pipe ∧
    io_error_to_term .alreadyExists = .already_exists ∧
    io_error_to_term .timedOut = .unknown :=
  open_io_failure_classified .notFound .timedOut (.ok "") (fun _ => .error "bad")
    (by decide) (by decide) (by decide) (by decide)

/-- C9: the source unwraps the I/O result of `read_record`
(`.unwrap()`, lib.rs lines 253 and 326), so an I/O failure during a record
read panics instead of being surfaced: modelled by `get_record_unwrapped`
returning no value at all — in particular no error result reaches the
caller, contradicting the claim that every such failure is surfaced on the
error channel. -/
theorem read_io_failure_panics (h : Header) (k : IoErrorKind)
    (res : Except ReadError VcfRecord) :
    get_record_unwrapped h (.error k) = none ∧
    get_record_unwrapped h (.error k) ≠ some res := by
  exact ⟨rfl, by intro hx; cases hx⟩

/-- C10: read_one consumes exactly the head line of the stream — the
remaining stream is the tail whatever the outcome (success, DecodeError or
the empty-buffer end-of-file), and the result depends only on the consumed
line, so a subsequent read_one observes the next line and the failing line
is never re-read. -/
theorem read_one_consumes_exactly_one_line (h : Header) (line : String)
    (rest : List String) :
    (get_record h (line :: rest)).2 = rest ∧
    (get_record h (line :: rest)).1 = (get_record h [line]).1 := by
  by_cases hl : line = ""
  · simp [get_record, hl]
  · cases hr : decodeRecordLine h line <;> simp [get_record, hl, hr]

/-- A line on which the external record decoder fails (too few columns);
used to exercise the decode-failure paths of the batch loop. -/
def badLine : String := "bad"

/-- The boundary record that the batch loop produces from `gtLine`: same
columns as via read_one, but with the empty genotypes mapping that
`get_records` hardcodes. -/
def gtRecordBatch : VcfRecord :=
  { chromosome := "1"
    position := 100
    ids := ["rs1"]
    reference_bases := "A"
    alternate_bases := "T"
    quality_score := some 50
    filters := .pass
    info := [("DP", "10")]
    format := ["GT", "DP"]
    genotypes := [] }

/-- Unfolding the batch loop body at a line that decodes successfully while
fewer than `count` records are collected: the record is appended and the
loop continues on the rest of the stream. -/
theorem get_records_go_ok_step (h : Header) (count : Nat) (acc : List VcfRecord)
    (line : String) (rest : List String) (r : ParsedRecord)
    (hl : ¬line = "") (hr : decodeRecordLine h line = .ok r)
    (_hlt : acc.length + 1 ≤ count) :
    get_records_go h count acc (line :: rest)
      = if acc.length + 1 < count then
          get_records_go h count (acc ++ [convertRecordBatch r]) rest
        else (none, acc ++ [convertRecordBatch r], false, rest) := by
  simp only [get_records_go, if_neg hl, hr, List.length_append, List.length_cons,
    List.length_nil, Nat.add_zero]

/-- The batch loop, entered with fewer records than `count` after a prefix of
clean lines, stops at the first failing line: it records that line's decode
error, leaves the rest of the stream unconsumed, and exits. -/
theorem get_records_go_error_after_good_prefix (h : Header) (count : Nat)
    (bad e : String) (rest : List String)
    (hbad : ¬bad = "") (hdec : decodeRecordLine h bad = .error e) :
    ∀ (pre : List String) (acc : List VcfRecord),
      (∀ l ∈ pre, ¬l = "" ∧ (decodeRecordLine h l).isOk = true) →
      acc.length + pre.length < count →
      ∃ acc2, get_records_go h count acc (pre ++ bad :: rest)
        = (some e, acc2, false, rest) := by
  intro pre
  induction pre with
  | nil =>
    intro acc _ _
    refine ⟨acc, ?_⟩
    simp [get_records_go, hbad, hdec]
  | cons l pre ih =>
    intro acc hpre hlen
    obtain ⟨hl, hok⟩ := hpre l (List.mem_cons_self l pre)
    cases hr : decodeRecordLine h l with
    | error e2 => rw [hr] at hok; simp [Except.isOk, Except.toBool] at hok
    | ok r =>
      simp only [List.length_cons] at hlen
      obtain ⟨acc2, hgo⟩ := ih (acc ++ [convertRecordBatch r])
        (fun l2 hl2 => hpre l2 (List.mem_cons_of_mem _ hl2))
        (by simp only [List.length_append, List.length_cons, List.length_nil]; omega)
      refine ⟨acc2, ?_⟩
      rw [List.cons_append, get_records_go_ok_step h count acc l _ r hl hr (by omega)]
      by_cases hcase : acc.length + 1 < count
      · rw [if_pos hcase]; exact hgo
      · omega

/-- The batch loop never grows the record vector beyond `count` when entered
with fewer than `count` records collected. -/
theorem get_records_go_length_le (h : Header) (count : Nat) :
    ∀ (lines : List String) (acc : List VcfRecord), acc.length < count →
      ((get_records_go h count acc lines).2.1).length ≤ count := by
  intro lines
  induction lines with
  | nil =>
    intro acc hacc
    simpa [get_records_go] using Nat.le_of_lt hacc
  | cons line rest ih =>
    intro acc hacc
    by_cases hl : line = ""
    · simpa [get_records_go, hl] using Nat.le_of_lt hacc
    · cases hr : decodeRecordLine h line with
      | error e =>
        simpa [get_records_go, hl, hr] using Nat.le_of_lt hacc
      | ok r =>
        rw [get_records_go_ok_step h count acc line rest r hl hr (by omega)]
        by_cases hcase : acc.length + 1 < count
        · rw [if_pos hcase]
          exact ih _ (by simpa using hcase)
        · rw [if_neg hcase]
          simpa using Nat.succ_le_of_lt hacc

/-- When the batch loop exits with no recorded error and the end-of-file
flag still false, it is because the record vector reached `count`. -/
theorem get_records_go_count_reached (h : Header) (count : Nat) :
    ∀ (lines : List String) (acc recs : List VcfRecord) (rest : List String),
      get_records_go h count acc lines = (none, recs, false, rest) →
      count ≤ recs.length := by
  intro lines
  induction lines with
  | nil =>
    intro acc recs rest hgo
    simp [get_records_go] at hgo
  | cons line tail ih =>
    intro acc recs rest hgo
    by_cases hl : line = ""
    · simp [get_records_go, hl] at hgo
    · cases hr : decodeRecordLine h line with
      | error e => simp [get_records_go, hl, hr] at hgo
      | ok r =>
        by_cases hle : acc.length + 1 ≤ count
        · rw [get_records_go_ok_step h count acc line tail r hl hr hle] at hgo
          by_cases hcase : acc.length + 1 < count
          · rw [if_pos hcase] at hgo
            exact ih _ recs rest hgo
          · rw [if_neg hcase] at hgo
            simp only [Prod.mk.injEq] at hgo
            obtain ⟨-, h2, -, -⟩ := hgo
            simp only [← h2, List.length_append, List.length_cons, List.length_nil]
            omega
        · simp only [get_records_go, if_neg hl, hr] at hgo
          rw [if_neg (by simp only [List.length_append, List.length_cons,
            List.length_nil]; omega)] at hgo
          simp only [Prod.mk.injEq] at hgo
          obtain ⟨-, h2, -, -⟩ := hgo
          simp only [← h2, List.length_append, List.length_cons, List.length_nil]
          omega

/-- C1 counterexample: with count 2 and the stream `[badLine, dpLine]`, the
claim requires the loop to keep consuming lines after the bad one until the
count/EOF stop condition (which would have consumed `dpLine`, leaving an
empty stream); the source instead exits at the first decode error, leaving
`dpLine` unconsumed on the stream. -/
theorem read_many_stops_consuming_counterexample :
    get_records dpHeader 2 [badLine, dpLine]
      = (.error "invalid number of columns: bad", [dpLine]) ∧
    [dpLine] ≠ ([] : List String) := by
  decide

/-- C1 (amended): when the batch loop meets a line that fails to decode
before `count` records have been produced, it stops immediately — consuming
the bad line but no further lines — and returns that first DecodeError with
no records, discarding any records decoded before the bad line. -/
theorem read_many_first_error_aborts (h : Header) (count : Nat)
    (pre : List String) (bad e : String) (rest : List String)
    (hpre : ∀ l ∈ pre, ¬l = "" ∧ (decodeRecordLine h l).isOk = true)
    (hlen : pre.length < count)
    (hbad : ¬bad = "") (hdec : decodeRecordLine h bad = .error e) :
    get_records h count (pre ++ bad :: rest) = (.error e, rest) := by
  obtain ⟨acc2, hgo⟩ := get_records_go_error_after_good_prefix h count bad e rest
    hbad hdec pre [] hpre (by simpa using hlen)
  simp [get_records, hgo]

/-- C1 witness: the abort theorem instantiated with one clean line before
the bad line and one line after it, at count 2. -/
theorem read_many_first_error_aborts_witness :
    get_records dpHeader 2 [dpLine, badLine, "XX"]
      = (.error "invalid number of columns: bad", ["XX"]) :=
  read_many_first_error_aborts dpHeader 2 [dpLine] badLine
    "invalid number of columns: bad" ["XX"] (by decide) (by decide) (by decide)
    (by decide)

/-- C2 counterexample: the claim bounds the batch size by the requested
count for every count, but the `first_read` flag forces one loop iteration
even at count 0, so `get_records` with count 0 on a stream holding one good
line returns one record. -/
theorem read_many_count_zero_counterexample :
    (get_records dpHeader 0 [dpLine]).1 = .ok [dpRecord] ∧
    ¬([dpRecord].length ≤ 0) := by
  decide

/-- C2 (amended): for every count of at least one, read_many returns at most
`count` records, and an error-free return of fewer than `count` records
happens only when the loop observed end-of-input (at count 0 the mandatory
first iteration can still return one record). -/
theorem read_many_at_most_count (h : Header) (count : Nat) (lines : List String)
    (recs : List VcfRecord) (rest : List String)
    (hc : 1 ≤ count)
    (hok : get_records h count lines = (.ok recs, rest)) :
    recs.length ≤ count ∧
    (recs.length < count → (get_records_go h count [] lines).2.2.1 = true) := by
  unfold get_records at hok
  rcases hgo : get_records_go h count [] lines with ⟨err, acc, eof, rem⟩
  rw [hgo] at hok
  cases err with
  | some e => simp at hok
  | none =>
    simp only [Prod.mk.injEq, Except.ok.injEq] at hok
    obtain ⟨h1, h2⟩ := hok
    subst h1; subst h2
    constructor
    · have := get_records_go_length_le h count lines [] (by simpa using hc)
      rw [hgo] at this
      simpa using this
    · intro hlt
      by_contra hflag
      have heof : eof = false := by
        cases eof
        · rfl
        · exact absurd rfl hflag
      subst heof
      have := get_records_go_count_reached h count lines [] acc rem hgo
      omega

/-- C2 witness: the bound theorem instantiated at count 2 on a one-line
stream — one record comes back and the end-of-file flag is set. -/
theorem read_many_at_most_count_witness :
    [dpRecord].length ≤ 2 ∧
    ([dpRecord].length < 2 → (get_records_go dpHeader 2 [] [dpLine]).2.2.1 = true) :=
  read_many_at_most_count dpHeader 2 [dpLine] [dpRecord] [] (by decide) (by decide)

/-- C3 counterexample: for the FORMAT `GT:DP` scenario with sample columns
`0/1:5` and `1/1:9`, the claim requires the genotypes mapping of a record
produced by read_many to retain GT and the first sample's DP; the batch loop
instead hardcodes the empty genotypes mapping (lib.rs lines 353-354). -/
theorem read_many_genotypes_empty_counterexample :
    get_records dpHeader 1 [gtLine] = (.ok [gtRecordBatch], []) ∧
    gtRecordBatch.genotypes = [] ∧
    ([] : List (String × String)) ≠ [("GT", "0/1"), ("DP", "5")] := by
  decide

/-- C3 (amended): for every record decoded by read_one, the genotypes
mapping is the first-seen-per-key flattening of the per-sample pairs built
by splitting each sample column on `:` and zipping positionally against the
FORMAT keys; a record produced by read_many instead always carries the empty
genotypes mapping. -/
theorem genotype_flattening (h : Header)
    (line chrom pos ids ref alt qual filt info fmt : String)
    (samples : List String) (r : ParsedRecord)
    (hcols : splitStr line '\t'
      = chrom :: pos :: ids :: ref :: alt :: qual :: filt :: info :: fmt :: samples)
    (hr : decodeRecordLine h line = .ok r) :
    r.format = splitStr fmt ':' ∧
    r.genotypes = samples.map (fun s => (splitStr fmt ':').zip (splitStr s ':')) ∧
    (convertRecord r).genotypes = uniqueByKey r.genotypes.flatten ∧
    (convertRecordBatch r).genotypes = [] := by
  unfold decodeRecordLine at hr
  rw [hcols] at hr
  cases hp : parseNatStr pos with
  | none => simp [hp] at hr
  | some p =>
    cases hq : parseQualColumn qual with
    | error e => simp [hp, hq] at hr
    | ok q =>
      simp only [hp, hq, Except.ok.injEq] at hr
      subst hr
      exact ⟨rfl, rfl, rfl, rfl⟩

/-- C3 witness: the flattening theorem instantiated at the GT:DP scenario
line — read_one retains GT=0/1 and DP=5 and drops the second sample's DP=9,
while the batch conversion yields the empty mapping. -/
theorem genotype_flattening_witness :
    gtParsed.format = ["GT", "DP"] ∧
    gtParsed.genotypes = [[("GT", "0/1"), ("DP", "5")], [("GT", "1/1"), ("DP", "9")]] ∧
    (convertRecord gtParsed).genotypes = [("GT", "0/1"), ("DP", "5")] ∧
    (convertRecordBatch gtParsed).genotypes = [] :=
  genotype_flattening dpHeader gtLine "1" "100" "rs1" "A" "T" "50" "PASS" "DP=10"
    "GT:DP" ["0/1:5", "1/1:9"] gtParsed (by decide) (by decide)

end Noodlex
